import Mathlib

/-!
Shallow embedding of the hummingbot-api-client request gateway and the
router call sites referenced by the specification.

Source files embedded:
  hummingbot_api_client/routers/base.py      (BaseRouter: _get, _post, _delete)
  hummingbot_api_client/routers/trading.py   (TradingRouter.get_orders)
  hummingbot_api_client/routers/executors.py (search_executors, stop_executor)
  hummingbot_client/routers/accounts.py      (AccountsRouter.list_accounts)
  hummingbot_client/routers/backtesting.py   (BacktestingRouter.run_backtesting)
  hummingbot_client/client.py                (HummingbotClient lifecycle)

Conventions of the embedding:
  - JSON values are the inductive `Json`; Python dicts that feed query
    parameters or JSON bodies are insertion-ordered association lists
    `List (String × Json)`.
  - URLs and paths are `List Char`, so that Python's `str.rstrip('/')` /
    `str.lstrip('/')` are `List.dropWhile` on the appropriate end.
  - An HTTP response delivered to the client is `Response`: its status and,
    when the body parses as JSON, the parsed body (`jsonBody = none` models a
    body that `response.json()` fails to parse).
  - Raising an exception is modelled with `Except`: `raise_for_status` and
    `response.json()` return `Except ClientError _`, and Python `try/except`
    blocks are explicit matches on that result.
  - The aiohttp session object is identified by a `Nat` handle; creating a
    session in `init` consumes a caller-supplied fresh handle.
-/

/-- JSON values as delivered by `response.json()`: Python None/bool/number/str,
lists and (insertion-ordered) dicts. Numbers are rationals, covering both the
ints and the floats that appear in the routers. -/
inductive Json where
  | null
  | bool (b : Bool)
  | num (q : Rat)
  | str (s : String)
  | arr (elems : List Json)
  | obj (fields : List (String × Json))

mutual

/-- Python's `str()` rendering of a parsed-JSON value, used by `_post` for
`message=str(error_detail)`: dicts and lists print with single quotes around
strings, None/True/False capitalized. -/
def py_str : Json → String
  | .null => "None"
  | .bool true => "True"
  | .bool false => "False"
  | .num q => toString q
  | .str s => "\x27" ++ s ++ "\x27"
  | .arr xs => "[" ++ py_str_list xs ++ "]"
  | .obj fs => "\x7b" ++ py_str_fields fs ++ "\x7d"

def py_str_list : List Json → String
  | [] => ""
  | [x] => py_str x
  | x :: y :: xs => py_str x ++ ", " ++ py_str_list (y :: xs)

def py_str_fields : List (String × Json) → String
  | [] => ""
  | [(k, v)] => "\x27" ++ k ++ "\x27: " ++ py_str v
  | (k, v) :: f :: fs => "\x27" ++ k ++ "\x27: " ++ py_str v ++ ", " ++ py_str_fields (f :: fs)

end

/-- An HTTP response as delivered to the client coroutine: the status code and
the parsed JSON body when the body parses (`none` models a body on which
`response.json()` raises). -/
structure Response where
  status : Nat
  jsonBody : Option Json

/-- The aiohttp-level errors the gateway can raise:
`ClientResponseError(status, message)` (from `raise_for_status` or the
hand-built re-wrap in `_post`) and the error `response.json()` raises when the
body is not JSON. -/
inductive ClientError where
  | clientResponseError (status : Nat) (message : String)
  | contentTypeError

/-- Standard HTTP reason phrases: `raise_for_status` puts `response.reason`
into the error message; a well-behaved server sends the phrase standard for
the code. Codes outside the table get an empty phrase. -/
def reason_phrase (status : Nat) : String :=
  if status = 400 then "Bad Request"
  else if status = 401 then "Unauthorized"
  else if status = 403 then "Forbidden"
  else if status = 404 then "Not Found"
  else if status = 500 then "Internal Server Error"
  else ""

/-- aiohttp `ClientResponse.ok`: true iff `status < 400`. -/
def Response.ok (r : Response) : Bool := r.status < 400

/-- aiohttp `ClientResponse.raise_for_status()`: raises
`ClientResponseError(status=self.status, message=self.reason)` iff
`status >= 400`; otherwise returns nothing. -/
def raise_for_status (r : Response) : Except ClientError Unit :=
  if r.status ≥ 400 then
    .error (.clientResponseError r.status (reason_phrase r.status))
  else .ok ()

/-- aiohttp `await response.json()`: the parsed body when it parses, an
exception otherwise. -/
def response_json (r : Response) : Except ClientError Json :=
  match r.jsonBody with
  | some j => .ok j
  | none => .error .contentTypeError

/-- Python `str.lstrip('/')`: drop every leading slash. -/
def lstrip_slash (s : List Char) : List Char := List.dropWhile (· == '/') s

/-- Python `str.rstrip('/')`: drop every trailing slash. -/
def rstrip_slash (s : List Char) : List Char :=
  (List.dropWhile (· == '/') s.reverse).reverse

/-- URL construction shared by `_get`, `_post` and `_delete`:
`url = f"{self.base_url}/{path.lstrip('/')}"` where `self.base_url` was
stored as `base_url.rstrip('/')` — `build_url` takes the raw strings and
performs both strips, matching the composition of `BaseRouter.__init__`
with the request methods. -/
def build_url (base_url path : List Char) : List Char :=
  rstrip_slash base_url ++ '/' :: lstrip_slash path

/-- BaseRouter (base.py): holds the shared aiohttp session (by handle) and
`base_url.rstrip('/')`. `session` and `base_url` are the stored fields. -/
structure BaseRouter where
  session : Nat
  base_url : List Char

/-- BaseRouter.__init__: stores the session reference and the base URL with
trailing slashes stripped. -/
def BaseRouter.make (session : Nat) (base_url : List Char) : BaseRouter :=
  ⟨session, rstrip_slash base_url⟩

/-- The request an operation hands to the aiohttp session: verb, full URL,
query parameters (the `params=` keyword, `none` when omitted or passed as
`None`) and JSON body (the `json=` keyword of `_post`). -/
structure RequestDescriptor where
  method : String
  url : List Char
  params : Option (List (String × Json))
  body : Option Json

/-- Request built by `BaseRouter._get`. -/
def BaseRouter.get_request (rt : BaseRouter) (path : List Char)
    (params : Option (List (String × Json))) : RequestDescriptor :=
  ⟨"GET", build_url rt.base_url path, params, none⟩

/-- Request built by `BaseRouter._post` (carries an optional JSON body). -/
def BaseRouter.post_request (rt : BaseRouter) (path : List Char)
    (json : Option Json) (params : Option (List (String × Json))) : RequestDescriptor :=
  ⟨"POST", build_url rt.base_url path, params, json⟩

/-- Request built by `BaseRouter._delete`. -/
def BaseRouter.delete_request (rt : BaseRouter) (path : List Char)
    (params : Option (List (String × Json))) : RequestDescriptor :=
  ⟨"DELETE", build_url rt.base_url path, params, none⟩

/-- Response handling of `BaseRouter._get`:
`response.raise_for_status(); return await response.json()`. -/
def get_response_handler (r : Response) : Except ClientError Json :=
  match raise_for_status r with
  | .error e => .error e
  | .ok _ => response_json r

/-- The `try:` block inside `_post`'s `if not response.ok:` branch:
`error_detail = await response.json()` followed by
`raise aiohttp.ClientResponseError(..., status=response.status,
message=str(error_detail), ...)`. Whether `response.json()` itself raises or
the explicit `raise` fires, the block always ends in an exception. -/
def post_wrap_error (r : Response) : Except ClientError Unit :=
  match response_json r with
  | .ok error_detail =>
      .error (.clientResponseError r.status (py_str error_detail))
  | .error e => .error e

/-- The whole `if not response.ok:` statement of `_post`: the `try:` block
above wrapped in a bare `except: pass`, which swallows every exception the
block raises — including the hand-built `ClientResponseError`. -/
def post_error_branch (r : Response) : Except ClientError Unit :=
  if !r.ok then
    match post_wrap_error r with
    | .error _ => .ok ()
    | .ok u => .ok u
  else .ok ()

/-- Response handling of `BaseRouter._post`: the (swallowed) wrap-then-raise
branch, then `response.raise_for_status(); return await response.json()`. -/
def post_response_handler (r : Response) : Except ClientError Json :=
  match post_error_branch r with
  | .error e => .error e
  | .ok _ =>
      match raise_for_status r with
      | .error e => .error e
      | .ok _ => response_json r

/-- Response handling of `BaseRouter._delete`:
`response.raise_for_status(); return await response.json()`. -/
def delete_response_handler (r : Response) : Except ClientError Json :=
  match raise_for_status r with
  | .error e => .error e
  | .ok _ => response_json r

/-- Result `BaseRouter._get` returns to its caller once the server delivers
response `r`. -/
def BaseRouter.get_result (rt : BaseRouter) (path : List Char)
    (params : Option (List (String × Json))) (r : Response) : Except ClientError Json :=
  get_response_handler r

/-- Result `BaseRouter._post` returns to its caller once the server delivers
response `r`. -/
def BaseRouter.post_result (rt : BaseRouter) (path : List Char)
    (json : Option Json) (params : Option (List (String × Json))) (r : Response) :
    Except ClientError Json :=
  post_response_handler r

/-- Result `BaseRouter._delete` returns to its caller once the server delivers
response `r`. -/
def BaseRouter.delete_result (rt : BaseRouter) (path : List Char)
    (params : Option (List (String × Json))) (r : Response) : Except ClientError Json :=
  delete_response_handler r

/-- Python truthiness of an `Optional[int]` (as in `if start_time:`):
`None` and `0` are falsy. -/
def truthy_int : Option Int → Bool
  | none => false
  | some n => n != 0

/-- Python truthiness of an `Optional[str]`: `None` and `""` are falsy. -/
def truthy_str : Option String → Bool
  | none => false
  | some s => s != ""

/-- Python truthiness of an `Optional[float]` (modelled over `Rat`):
`None` and `0.0` are falsy. -/
def truthy_rat : Option Rat → Bool
  | none => false
  | some q => q != 0

/-- JSON value of an optional int written into a params/body dict (only used
under a guard that rules out `none`). -/
def json_of_opt_int : Option Int → Json
  | some n => .num (n : Rat)
  | none => .null

/-- JSON value of an optional string written into a params/body dict. -/
def json_of_opt_str : Option String → Json
  | some s => .str s
  | none => .null

/-- JSON value of an optional float written into a params/body dict. -/
def json_of_opt_rat : Option Rat → Json
  | some q => .num q
  | none => .null

/-- Python `params or None` / `params if params else None`: an empty dict is
falsy, so an empty mapping is passed to aiohttp as `None`. -/
def py_dict_or_none (d : List (String × Json)) : Option (List (String × Json)) :=
  if d.isEmpty then none else some d

/-- One Python statement `if x: d[key] = x` over an `Optional[int]`:
append the key when the argument is truthy, leave the dict alone otherwise. -/
def setitem_if_truthy_int (d : List (String × Json)) (key : String)
    (o : Option Int) : List (String × Json) :=
  if truthy_int o then d ++ [(key, json_of_opt_int o)] else d

/-- One Python statement `if x: d[key] = x` over an `Optional[str]`. -/
def setitem_if_truthy_str (d : List (String × Json)) (key : String)
    (o : Option String) : List (String × Json) :=
  if truthy_str o then d ++ [(key, json_of_opt_str o)] else d

/-- One Python statement `if x: d[key] = x` over an `Optional[float]`. -/
def setitem_if_truthy_rat (d : List (String × Json)) (key : String)
    (o : Option Rat) : List (String × Json) :=
  if truthy_rat o then d ++ [(key, json_of_opt_rat o)] else d

/-- One Python statement `if x is not None: d[key] = x`: append the key
exactly when the argument is present (`f` renders the value as JSON). -/
def setitem_if_not_none {α : Type} (d : List (String × Json)) (key : String)
    (o : Option α) (f : α → Json) : List (String × Json) :=
  match o with
  | some v => d ++ [(key, f v)]
  | none => d

/-- TradingRouter.get_orders (trading.py): `params = {}` then
`if start_time: params["start_time"] = start_time` and likewise for
`end_time`, `page`, `page_size` — conditional inclusion by truthiness. -/
def get_orders_params (start_time end_time page page_size : Option Int) :
    List (String × Json) :=
  let params : List (String × Json) := []
  let params := setitem_if_truthy_int params "start_time" start_time
  let params := setitem_if_truthy_int params "end_time" end_time
  let params := setitem_if_truthy_int params "page" page
  let params := setitem_if_truthy_int params "page_size" page_size
  params

/-- TradingRouter.get_orders delegation:
`self._get("/trading/orders", params=params or None)`. -/
def TradingRouter.get_orders_request (rt : BaseRouter)
    (start_time end_time page page_size : Option Int) : RequestDescriptor :=
  rt.get_request "/trading/orders".toList
    (py_dict_or_none (get_orders_params start_time end_time page page_size))

/-- ExecutorsRouter.search_executors (executors.py): `filters = {}` then one
`if <arg> is not None: filters["<arg>"] = <arg>` per argument — conditional
inclusion by an is-not-None test, so `False` and `0` are preserved. -/
def search_executors_filters
    (executor_ids : Option (List String)) (controller_id : Option String)
    (executor_types : Option (List String)) (statuses : Option (List String))
    (is_active is_archived : Option Bool)
    (trading_pair connector_name account_name side : Option String)
    (start_time_from start_time_to end_time_from end_time_to : Option Int) :
    List (String × Json) :=
  let filters : List (String × Json) := []
  let filters := setitem_if_not_none filters "executor_ids" executor_ids
    (fun v => Json.arr (v.map Json.str))
  let filters := setitem_if_not_none filters "controller_id" controller_id Json.str
  let filters := setitem_if_not_none filters "executor_types" executor_types
    (fun v => Json.arr (v.map Json.str))
  let filters := setitem_if_not_none filters "statuses" statuses
    (fun v => Json.arr (v.map Json.str))
  let filters := setitem_if_not_none filters "is_active" is_active Json.bool
  let filters := setitem_if_not_none filters "is_archived" is_archived Json.bool
  let filters := setitem_if_not_none filters "trading_pair" trading_pair Json.str
  let filters := setitem_if_not_none filters "connector_name" connector_name Json.str
  let filters := setitem_if_not_none filters "account_name" account_name Json.str
  let filters := setitem_if_not_none filters "side" side Json.str
  let filters := setitem_if_not_none filters "start_time_from" start_time_from
    (fun v => Json.num (v : Rat))
  let filters := setitem_if_not_none filters "start_time_to" start_time_to
    (fun v => Json.num (v : Rat))
  let filters := setitem_if_not_none filters "end_time_from" end_time_from
    (fun v => Json.num (v : Rat))
  let filters := setitem_if_not_none filters "end_time_to" end_time_to
    (fun v => Json.num (v : Rat))
  filters

/-- ExecutorsRouter.search_executors delegation:
`self._post("/executors/search", json=filters)` (no query parameters). -/
def ExecutorsRouter.search_executors_request (rt : BaseRouter)
    (executor_ids : Option (List String)) (controller_id : Option String)
    (executor_types : Option (List String)) (statuses : Option (List String))
    (is_active is_archived : Option Bool)
    (trading_pair connector_name account_name side : Option String)
    (start_time_from start_time_to end_time_from end_time_to : Option Int) :
    RequestDescriptor :=
  rt.post_request "/executors/search".toList
    (some (Json.obj (search_executors_filters executor_ids controller_id
      executor_types statuses is_active is_archived trading_pair connector_name
      account_name side start_time_from start_time_to end_time_from end_time_to)))
    none

/-- BacktestingRouter.run_backtesting (backtesting.py): the JSON body starts
as `{"config": config}` and adds `start_time`, `end_time`,
`backtesting_resolution`, `trade_cost` by truthiness. -/
def run_backtesting_body (config : Json) (start_time end_time : Option Int)
    (backtesting_resolution : Option String) (trade_cost : Option Rat) :
    List (String × Json) :=
  let request : List (String × Json) := [("config", config)]
  let request := setitem_if_truthy_int request "start_time" start_time
  let request := setitem_if_truthy_int request "end_time" end_time
  let request := setitem_if_truthy_str request "backtesting_resolution" backtesting_resolution
  let request := setitem_if_truthy_rat request "trade_cost" trade_cost
  request

/-- BacktestingRouter.run_backtesting delegation:
`self._post("/backtesting/run-backtesting", json=request)`. -/
def BacktestingRouter.run_backtesting_request (rt : BaseRouter) (config : Json)
    (start_time end_time : Option Int) (backtesting_resolution : Option String)
    (trade_cost : Option Rat) : RequestDescriptor :=
  rt.post_request "/backtesting/run-backtesting".toList
    (some (Json.obj (run_backtesting_body config start_time end_time
      backtesting_resolution trade_cost)))
    none

/-- Lower-casing of an ASCII character, as `str.lower()` acts on the letters
of `"True"` / `"False"`. -/
def lower_char (c : Char) : Char :=
  if 'A' ≤ c ∧ c ≤ 'Z' then Char.ofNat (c.toNat + 32) else c

/-- Python `str.lower()` (ASCII fragment). -/
def py_lower (s : String) : String := String.mk (s.data.map lower_char)

/-- Python `str(b)` on a bool: `"True"` or `"False"`. -/
def py_bool_str (b : Bool) : String := if b then "True" else "False"

/-- ExecutorsRouter.stop_executor (executors.py):
`params = {"keep_position": str(keep_position).lower()}`. -/
def stop_executor_params (keep_position : Bool) : List (String × Json) :=
  [("keep_position", Json.str (py_lower (py_bool_str keep_position)))]

/-- ExecutorsRouter.stop_executor delegation:
`self._post(f"/executors/{executor_id}/stop", json={}, params=params)`. -/
def ExecutorsRouter.stop_executor_request (rt : BaseRouter) (executor_id : String)
    (keep_position : Bool) : RequestDescriptor :=
  rt.post_request ("/executors/".toList ++ executor_id.toList ++ "/stop".toList)
    (some (Json.obj []))
    (some (stop_executor_params keep_position))

/-- AccountsRouter.list_accounts (accounts.py): `return await
self._get("/accounts/")` — the gateway result is returned unmodified. -/
def AccountsRouter.list_accounts (rt : BaseRouter) (r : Response) :
    Except ClientError Json :=
  rt.get_result "/accounts/".toList none r

/-- HummingbotClient state (client.py): `base_url` (stored rstripped), the
basic-auth pair, the total timeout (seconds), and the `Optional` session and
router fields that `init`/`close` fill and clear. Router types collapse to
`BaseRouter` since every Python router class only adds methods to it. -/
structure ClientState where
  base_url : List Char
  auth : String × String
  timeout : Nat
  _session : Option Nat
  _accounts : Option BaseRouter
  _markets : Option BaseRouter
  _trading : Option BaseRouter
  _docker : Option BaseRouter
  _bot_orchestration : Option BaseRouter
  _controllers : Option BaseRouter
  _scripts : Option BaseRouter
  _databases : Option BaseRouter
  _backtesting : Option BaseRouter
  _performance : Option BaseRouter

/-- HummingbotClient.__init__: `self.base_url = base_url.rstrip('/')`,
basic auth from the credentials, `timeout or ClientTimeout(total=30)`, and
every `Optional` field set to `None`. -/
def HummingbotClient.make (base_url : List Char) (username password : String)
    (timeout : Option Nat) : ClientState :=
  { base_url := rstrip_slash base_url
    auth := (username, password)
    timeout := timeout.getD 30
    _session := none
    _accounts := none
    _markets := none
    _trading := none
    _docker := none
    _bot_orchestration := none
    _controllers := none
    _scripts := none
    _databases := none
    _backtesting := none
    _performance := none }

/-- HummingbotClient.init: `if self._session is None:` create the session and
construct every router over it with `self.base_url`; otherwise do nothing.
The fresh session object is the caller-supplied handle `fresh`. -/
def ClientState.init (c : ClientState) (fresh : Nat) : ClientState :=
  match c._session with
  | none =>
      { c with
        _session := some fresh
        _accounts := some (BaseRouter.make fresh c.base_url)
        _markets := some (BaseRouter.make fresh c.base_url)
        _trading := some (BaseRouter.make fresh c.base_url)
        _docker := some (BaseRouter.make fresh c.base_url)
        _bot_orchestration := some (BaseRouter.make fresh c.base_url)
        _controllers := some (BaseRouter.make fresh c.base_url)
        _scripts := some (BaseRouter.make fresh c.base_url)
        _databases := some (BaseRouter.make fresh c.base_url)
        _backtesting := some (BaseRouter.make fresh c.base_url)
        _performance := some (BaseRouter.make fresh c.base_url) }
  | some _ => c

/-- HummingbotClient.close: `if self._session:` close it and set the session
and every router field back to `None`; otherwise do nothing. -/
def ClientState.close (c : ClientState) : ClientState :=
  match c._session with
  | some _ =>
      { c with
        _session := none
        _accounts := none
        _markets := none
        _trading := none
        _docker := none
        _bot_orchestration := none
        _controllers := none
        _scripts := none
        _databases := none
        _backtesting := none
        _performance := none }
  | none => c

/-- The message of the `RuntimeError` raised by every router property. -/
def not_initialized_message : String :=
  "Client not initialized. Call await client.init() first."

/-- The `accounts` property: raise the not-initialized `RuntimeError` when the
field is `None`, otherwise return the router. -/
def ClientState.accounts_router (c : ClientState) : Except String BaseRouter :=
  match c._accounts with
  | none => .error not_initialized_message
  | some r => .ok r

/-- The `markets` property. -/
def ClientState.markets_router (c : ClientState) : Except String BaseRouter :=
  match c._markets with
  | none => .error not_initialized_message
  | some r => .ok r

/-- The `trading` property. -/
def ClientState.trading_router (c : ClientState) : Except String BaseRouter :=
  match c._trading with
  | none => .error not_initialized_message
  | some r => .ok r

/-- The `docker` property. -/
def ClientState.docker_router (c : ClientState) : Except String BaseRouter :=
  match c._docker with
  | none => .error not_initialized_message
  | some r => .ok r

/-- The `bot_orchestration` property. -/
def ClientState.bot_orchestration_router (c : ClientState) : Except String BaseRouter :=
  match c._bot_orchestration with
  | none => .error not_initialized_message
  | some r => .ok r

/-- The `controllers` property. -/
def ClientState.controllers_router (c : ClientState) : Except String BaseRouter :=
  match c._controllers with
  | none => .error not_initialized_message
  | some r => .ok r

/-- The `scripts` property. -/
def ClientState.scripts_router (c : ClientState) : Except String BaseRouter :=
  match c._scripts with
  | none => .error not_initialized_message
  | some r => .ok r

/-- The `databases` property. -/
def ClientState.databases_router (c : ClientState) : Except String BaseRouter :=
  match c._databases with
  | none => .error not_initialized_message
  | some r => .ok r

/-- The `backtesting` property. -/
def ClientState.backtesting_router (c : ClientState) : Except String BaseRouter :=
  match c._backtesting with
  | none => .error not_initialized_message
  | some r => .ok r

/-- The `performance` property. -/
def ClientState.performance_router (c : ClientState) : Except String BaseRouter :=
  match c._performance with
  | none => .error not_initialized_message
  | some r => .ok r

/-- A call through the client can fail either with the not-initialized
`RuntimeError` of a property or with an HTTP-level error of the gateway. -/
inductive ApiFailure where
  | notInitialized (message : String)
  | http (e : ClientError)

/-- `client.accounts.list_accounts()`: resolve the `accounts` property, then
run the router method against the delivered response `r`. When the property
raises, `r` is never consulted — no network call is attempted. -/
def client_accounts_list_accounts (c : ClientState) (r : Response) :
    Except ApiFailure Json :=
  match c.accounts_router with
  | .error m => .error (.notInitialized m)
  | .ok rt =>
      match AccountsRouter.list_accounts rt r with
      | .ok j => .ok j
      | .error e => .error (.http e)

/-- The ten router fields of a client state, in declaration order. -/
def routers_of (c : ClientState) : List (Option BaseRouter) :=
  [c._accounts, c._markets, c._trading, c._docker, c._bot_orchestration,
   c._controllers, c._scripts, c._databases, c._backtesting, c._performance]

/-- Client states reachable through the public lifecycle: a fresh
`HummingbotClient(...)` followed by any sequence of `init` and `close`. -/
inductive Reachable : ClientState → Prop where
  | make : ∀ (base : List Char) (u p : String) (t : Option Nat),
      Reachable (HummingbotClient.make base u p t)
  | init : ∀ (c : ClientState) (f : Nat), Reachable c → Reachable (c.init f)
  | close : ∀ (c : ClientState), Reachable c → Reachable c.close

lemma dropWhile_slash_replicate (k : Nat) (l : List Char) :
    List.dropWhile (· == '/') (List.replicate k '/' ++ l) =
      List.dropWhile (· == '/') l := by
  induction k with
  | zero => simp
  | succ n ih => simpa [List.replicate_succ] using ih

lemma head?_dropWhile_slash (l : List Char) :
    (List.dropWhile (· == '/') l).head? ≠ some '/' := by
  induction l with
  | nil => simp
  | cons a l ih =>
    by_cases h : a == '/'
    · simpa [List.dropWhile_cons, h] using ih
    · have ha : a ≠ '/' := by simpa using h
      simp [List.dropWhile_cons, h, ha]

lemma rstrip_slash_idem (s : List Char) :
    rstrip_slash (rstrip_slash s) = rstrip_slash s := by
  simp [rstrip_slash, List.reverse_reverse, List.dropWhile_idempotent]

lemma rstrip_slash_append_replicate (s : List Char) (j : Nat) :
    rstrip_slash (s ++ List.replicate j '/') = rstrip_slash s := by
  simp [rstrip_slash, List.reverse_append, List.reverse_replicate,
    dropWhile_slash_replicate]

lemma lstrip_slash_replicate_append (s : List Char) (k : Nat) :
    lstrip_slash (List.replicate k '/' ++ s) = lstrip_slash s := by
  simp [lstrip_slash, dropWhile_slash_replicate]

lemma getLast?_rstrip_slash (s : List Char) :
    (rstrip_slash s).getLast? ≠ some '/' := by
  rw [rstrip_slash, List.getLast?_reverse]
  exact head?_dropWhile_slash _

lemma head?_lstrip_slash (s : List Char) :
    (lstrip_slash s).head? ≠ some '/' :=
  head?_dropWhile_slash s

lemma reachable_invariant (c : ClientState) (h : Reachable c) :
    rstrip_slash c.base_url = c.base_url ∧
    (c._session = none → ∀ o ∈ routers_of c, o = none) ∧
    (∀ s, c._session = some s → ∀ o ∈ routers_of c, o = some ⟨s, c.base_url⟩) := by
  induction h with
  | make base u p t =>
    refine ⟨rstrip_slash_idem base, ?_, ?_⟩
    · intro _ o ho
      simpa [routers_of, HummingbotClient.make] using ho
    · intro s hs
      simp [HummingbotClient.make] at hs
  | init c f hc ih =>
    rcases hsess : c._session with _ | s0
    · refine ⟨?_, ?_, ?_⟩
      · simpa [ClientState.init, hsess] using ih.1
      · intro hnone
        rw [ClientState.init, hsess] at hnone
        simp at hnone
      · intro s hs o ho
        rw [ClientState.init, hsess] at hs
        simp at hs
        rw [ClientState.init, hsess] at ho
        simp [routers_of] at ho
        simp [ClientState.init, hsess, ho, BaseRouter.make, ih.1, hs]
    · have : c.init f = c := by simp [ClientState.init, hsess]
      rw [this]
      exact ih
  | close c hc ih =>
    rcases hsess : c._session with _ | s0
    · have : c.close = c := by simp [ClientState.close, hsess]
      rw [this]
      exact ih
    · refine ⟨?_, ?_, ?_⟩
      · simpa [ClientState.close, hsess] using ih.1
      · intro _ o ho
        rw [ClientState.close, hsess] at ho
        simpa [routers_of] using ho
      · intro s hs
        rw [ClientState.close, hsess] at hs
        simp at hs

/-- C10: the request URL is `base_url.rstrip('/') + "/" + path.lstrip('/')`:
invariant under adding trailing slashes to the base URL and leading slashes to
the path, and the two stripped halves meet at exactly one separator (the
stripped base never ends in a slash and the stripped path never starts with
one). -/
theorem url_join_single_separator (base path : List Char) (j k : Nat) :
    build_url (base ++ List.replicate j '/') (List.replicate k '/' ++ path)
      = build_url base path ∧
    build_url base path = rstrip_slash base ++ '/' :: lstrip_slash path ∧
    (rstrip_slash base).getLast? ≠ some '/' ∧
    (lstrip_slash path).head? ≠ some '/' := by
  refine ⟨?_, rfl, getLast?_rstrip_slash base, head?_lstrip_slash path⟩
  simp [build_url, rstrip_slash_append_replicate, lstrip_slash_replicate_append]

/-- C1 counterexample: a response with status 304 is outside [200,299], yet
none of the three operations raises — each parses and returns the body,
because `raise_for_status` only fires for status ≥ 400. -/
theorem non2xx_raise_counterexample :
    ¬ (200 ≤ 304 ∧ 304 ≤ 299) ∧
    get_response_handler ⟨304, some (Json.obj [("cached", Json.bool true)])⟩
      = .ok (Json.obj [("cached", Json.bool true)]) ∧
    post_response_handler ⟨304, some (Json.obj [("cached", Json.bool true)])⟩
      = .ok (Json.obj [("cached", Json.bool true)]) ∧
    delete_response_handler ⟨304, some (Json.obj [("cached", Json.bool true)])⟩
      = .ok (Json.obj [("cached", Json.bool true)]) :=
  ⟨by omega, rfl, rfl, rfl⟩

/-- C1 amended: the three gateway operations raise on status exactly when the
delivered status is ≥ 400 (aiohttp's `raise_for_status` threshold), and then
the raised `ClientResponseError` carries precisely the HTTP status (with the
response's reason phrase) and no value is returned; for a delivered status
below 400 — including the non-2xx range [300,399] — the status check never
raises and each operation just returns the result of parsing the body. -/
theorem raise_on_status_iff_ge_400 (r : Response) :
    (400 ≤ r.status →
      get_response_handler r
        = .error (.clientResponseError r.status (reason_phrase r.status)) ∧
      post_response_handler r
        = .error (.clientResponseError r.status (reason_phrase r.status)) ∧
      delete_response_handler r
        = .error (.clientResponseError r.status (reason_phrase r.status))) ∧
    (r.status < 400 →
      get_response_handler r = response_json r ∧
      post_response_handler r = response_json r ∧
      delete_response_handler r = response_json r) := by
  constructor
  · intro hge
    have hok : r.ok = false := by
      simp only [Response.ok, decide_eq_false_iff_not, Nat.not_lt]
      exact hge
    have hraise : raise_for_status r
        = .error (.clientResponseError r.status (reason_phrase r.status)) := by
      simp [raise_for_status, hge]
    have hbranch : post_error_branch r = .ok () := by
      rcases hj : r.jsonBody with _ | j <;>
        simp [post_error_branch, post_wrap_error, response_json, hok, hj]
    refine ⟨?_, ?_, ?_⟩
    · simp [get_response_handler, hraise]
    · simp [post_response_handler, hbranch, hraise]
    · simp [delete_response_handler, hraise]
  · intro hlt
    have hnot : ¬ 400 ≤ r.status := by omega
    have hok : r.ok = true := by
      simp only [Response.ok, decide_eq_true_eq]
      exact hlt
    have hraise : raise_for_status r = .ok () := by simp [raise_for_status, hnot]
    have hbranch : post_error_branch r = .ok () := by
      simp [post_error_branch, hok]
    refine ⟨?_, ?_, ?_⟩
    · simp [get_response_handler, hraise]
    · simp [post_response_handler, hbranch, hraise]
    · simp [delete_response_handler, hraise]

/-- C1 witness: at status 404 all three operations fail with the typed error
carrying 404, and at status 304 they return the parsed body. -/
theorem raise_on_status_iff_ge_400_witness :
    (get_response_handler ⟨404, some Json.null⟩
      = .error (.clientResponseError 404 "Not Found") ∧
     post_response_handler ⟨404, some Json.null⟩
      = .error (.clientResponseError 404 "Not Found") ∧
     delete_response_handler ⟨404, some Json.null⟩
      = .error (.clientResponseError 404 "Not Found")) ∧
    get_response_handler ⟨304, some Json.null⟩ = .ok Json.null := by
  refine ⟨(raise_on_status_iff_ge_400 ⟨404, some Json.null⟩).1 (by decide), ?_⟩
  have h := ((raise_on_status_iff_ge_400 ⟨304, some Json.null⟩).2 (by decide)).1
  simpa [response_json] using h

/-- C2: the wrap-then-raise branch of `_post` is dead logic — the bare
`except: pass` swallows the re-wrapped error it raises, so the branch always
falls through, and `_post`'s behaviour on every response (failure and success
alike) is identical to `_get`'s. -/
theorem post_wrap_branch_dead (r : Response) :
    post_error_branch r = .ok () ∧
    post_response_handler r = get_response_handler r := by
  have hbranch : post_error_branch r = .ok () := by
    rcases hok : r.ok
    · rcases hj : r.jsonBody with _ | j <;>
        simp [post_error_branch, post_wrap_error, response_json, hok, hj]
    · simp [post_error_branch, hok]
  exact ⟨hbranch, by simp [post_response_handler, get_response_handler, hbranch]⟩

/-- C3: at a POST response of status 400 with body
`{"detail": "already exists"}`, the re-wrap branch does construct an error
carrying the stringified JSON detail (first conjunct), but that error is
swallowed, and what `_post` actually raises is the plain
`ClientResponseError(status=400, message="Bad Request")` — the remote error
body never reaches the caller (second conjunct). -/
theorem post_400_detail_lost :
    post_wrap_error ⟨400, some (Json.obj [("detail", Json.str "already exists")])⟩
      = .error (.clientResponseError 400
          "\x7b\x27detail\x27: \x27already exists\x27\x7d") ∧
    post_response_handler ⟨400, some (Json.obj [("detail", Json.str "already exists")])⟩
      = .error (.clientResponseError 400 "Bad Request") :=
  ⟨rfl, rfl⟩

/-- C4: for every 2xx response whose body parses as JSON, each gateway
operation returns exactly the parsed body, and `AccountsRouter.list_accounts`
passes that result through unmodified for every router instance. -/
theorem success_returns_parsed_body (r : Response) (j : Json)
    (hlo : 200 ≤ r.status) (hhi : r.status ≤ 299) (hbody : r.jsonBody = some j) :
    get_response_handler r = .ok j ∧
    post_response_handler r = .ok j ∧
    delete_response_handler r = .ok j ∧
    ∀ rt : BaseRouter, AccountsRouter.list_accounts rt r = .ok j := by
  have hnot : ¬ 400 ≤ r.status := by omega
  have hok : r.ok = true := by
    simp only [Response.ok, decide_eq_true_eq]
    omega
  have hraise : raise_for_status r = .ok () := by simp [raise_for_status, hnot]
  have hjson : response_json r = .ok j := by simp [response_json, hbody]
  have hget : get_response_handler r = .ok j := by
    simp [get_response_handler, hraise, hjson]
  have hbranch : post_error_branch r = .ok () := by simp [post_error_branch, hok]
  refine ⟨hget, ?_, ?_, ?_⟩
  · simp [post_response_handler, hbranch, hraise, hjson]
  · simp [delete_response_handler, hraise, hjson]
  · intro rt
    simpa [AccountsRouter.list_accounts, BaseRouter.get_result] using hget

/-- C4 witness: the docker-running fixture of the spec — status 200 with body
`{"is_docker_running": true}` — comes back exactly, both from the raw GET
handler and through `list_accounts` on a concrete router. -/
theorem success_returns_parsed_body_witness :
    get_response_handler ⟨200, some (Json.obj [("is_docker_running", Json.bool true)])⟩
      = .ok (Json.obj [("is_docker_running", Json.bool true)]) ∧
    AccountsRouter.list_accounts (BaseRouter.make 7 "http://localhost:8000".toList)
        ⟨200, some (Json.obj [("is_docker_running", Json.bool true)])⟩
      = .ok (Json.obj [("is_docker_running", Json.bool true)]) := by
  have h := success_returns_parsed_body
    ⟨200, some (Json.obj [("is_docker_running", Json.bool true)])⟩
    (Json.obj [("is_docker_running", Json.bool true)]) (by decide) (by decide) rfl
  exact ⟨h.1, h.2.2.2 _⟩

lemma mem_keys_setitem_if_truthy_int (k : String) (d : List (String × Json))
    (key : String) (o : Option Int) :
    k ∈ (setitem_if_truthy_int d key o).map Prod.fst ↔
      k ∈ d.map Prod.fst ∨ (truthy_int o = true ∧ k = key) := by
  by_cases h : truthy_int o <;> simp [setitem_if_truthy_int, h]

lemma mem_keys_setitem_if_truthy_str (k : String) (d : List (String × Json))
    (key : String) (o : Option String) :
    k ∈ (setitem_if_truthy_str d key o).map Prod.fst ↔
      k ∈ d.map Prod.fst ∨ (truthy_str o = true ∧ k = key) := by
  by_cases h : truthy_str o <;> simp [setitem_if_truthy_str, h]

lemma mem_keys_setitem_if_truthy_rat (k : String) (d : List (String × Json))
    (key : String) (o : Option Rat) :
    k ∈ (setitem_if_truthy_rat d key o).map Prod.fst ↔
      k ∈ d.map Prod.fst ∨ (truthy_rat o = true ∧ k = key) := by
  by_cases h : truthy_rat o <;> simp [setitem_if_truthy_rat, h]

lemma mem_keys_setitem_if_not_none {α : Type} (k : String)
    (d : List (String × Json)) (key : String) (o : Option α) (f : α → Json) :
    k ∈ (setitem_if_not_none d key o f).map Prod.fst ↔
      k ∈ d.map Prod.fst ∨ (o ≠ none ∧ k = key) := by
  rcases o with _ | v <;> simp [setitem_if_not_none]

/-- C5: an optional argument the caller leaves at `None` never contributes its
key to the outgoing query parameters or JSON body — across
`TradingRouter.get_orders`, `BacktestingRouter.run_backtesting` and
`ExecutorsRouter.search_executors` — and with every optional argument of
`get_orders` omitted, the request is sent with no query parameters at all
(`params or None` passes `None`). -/
theorem omitted_optionals_absent
    (st et pg ps : Option Int)
    (config : Json) (bst bet : Option Int) (bres : Option String) (btc : Option Rat)
    (eids : Option (List String)) (cid : Option String)
    (etypes stats : Option (List String)) (iact iarch : Option Bool)
    (tp cn an sd : Option String) (stf stt etf ett : Option Int) :
    (st = none → "start_time" ∉ (get_orders_params st et pg ps).map Prod.fst) ∧
    (et = none → "end_time" ∉ (get_orders_params st et pg ps).map Prod.fst) ∧
    (pg = none → "page" ∉ (get_orders_params st et pg ps).map Prod.fst) ∧
    (ps = none → "page_size" ∉ (get_orders_params st et pg ps).map Prod.fst) ∧
    (∀ rt : BaseRouter,
      (TradingRouter.get_orders_request rt none none none none).params = none) ∧
    (bst = none → "start_time" ∉
      (run_backtesting_body config bst bet bres btc).map Prod.fst) ∧
    (bet = none → "end_time" ∉
      (run_backtesting_body config bst bet bres btc).map Prod.fst) ∧
    (bres = none → "backtesting_resolution" ∉
      (run_backtesting_body config bst bet bres btc).map Prod.fst) ∧
    (btc = none → "trade_cost" ∉
      (run_backtesting_body config bst bet bres btc).map Prod.fst) ∧
    (run_backtesting_body config none none none none = [("config", config)]) ∧
    (eids = none → "executor_ids" ∉
      (search_executors_filters eids cid etypes stats iact iarch tp cn an sd
        stf stt etf ett).map Prod.fst) ∧
    (cid = none → "controller_id" ∉
      (search_executors_filters eids cid etypes stats iact iarch tp cn an sd
        stf stt etf ett).map Prod.fst) ∧
    (etypes = none → "executor_types" ∉
      (search_executors_filters eids cid etypes stats iact iarch tp cn an sd
        stf stt etf ett).map Prod.fst) ∧
    (stats = none → "statuses" ∉
      (search_executors_filters eids cid etypes stats iact iarch tp cn an sd
        stf stt etf ett).map Prod.fst) ∧
    (iact = none → "is_active" ∉
      (search_executors_filters eids cid etypes stats iact iarch tp cn an sd
        stf stt etf ett).map Prod.fst) ∧
    (iarch = none → "is_archived" ∉
      (search_executors_filters eids cid etypes stats iact iarch tp cn an sd
        stf stt etf ett).map Prod.fst) ∧
    (tp = none → "trading_pair" ∉
      (search_executors_filters eids cid etypes stats iact iarch tp cn an sd
        stf stt etf ett).map Prod.fst) ∧
    (cn = none → "connector_name" ∉
      (search_executors_filters eids cid etypes stats iact iarch tp cn an sd
        stf stt etf ett).map Prod.fst) ∧
    (an = none → "account_name" ∉
      (search_executors_filters eids cid etypes stats iact iarch tp cn an sd
        stf stt etf ett).map Prod.fst) ∧
    (sd = none → "side" ∉
      (search_executors_filters eids cid etypes stats iact iarch tp cn an sd
        stf stt etf ett).map Prod.fst) ∧
    (stf = none → "start_time_from" ∉
      (search_executors_filters eids cid etypes stats iact iarch tp cn an sd
        stf stt etf ett).map Prod.fst) ∧
    (stt = none → "start_time_to" ∉
      (search_executors_filters eids cid etypes stats iact iarch tp cn an sd
        stf stt etf ett).map Prod.fst) ∧
    (etf = none → "end_time_from" ∉
      (search_executors_filters eids cid etypes stats iact iarch tp cn an sd
        stf stt etf ett).map Prod.fst) ∧
    (ett = none → "end_time_to" ∉
      (search_executors_filters eids cid etypes stats iact iarch tp cn an sd
        stf stt etf ett).map Prod.fst) ∧
    (search_executors_filters none none none none none none none none none none
      none none none none = []) := by
  refine ⟨?_, ?_, ?_, ?_, fun rt => rfl, ?_, ?_, ?_, ?_, rfl,
    ?_, ?_, ?_, ?_, ?_, ?_, ?_, ?_, ?_, ?_, ?_, ?_, ?_, ?_, rfl⟩ <;>
    rintro rfl <;>
    simp only [get_orders_params, run_backtesting_body, search_executors_filters,
      mem_keys_setitem_if_truthy_int, mem_keys_setitem_if_truthy_str,
      mem_keys_setitem_if_truthy_rat, mem_keys_setitem_if_not_none] <;>
    simp [truthy_int, truthy_str, truthy_rat]

/-- C5 witness: concrete instances — `start_time` omitted (other arguments
present) is absent from the `get_orders` query; all-omitted `get_orders`
sends no query mapping; all-omitted `run_backtesting` sends only `config`;
`is_active` omitted is absent from the `search_executors` body. -/
theorem omitted_optionals_absent_witness :
    "start_time" ∉ (get_orders_params none (some 5) none none).map Prod.fst ∧
    (TradingRouter.get_orders_request (BaseRouter.make 3 "http://h".toList)
      none none none none).params = none ∧
    run_backtesting_body (Json.obj []) none none none none
      = [("config", Json.obj [])] ∧
    "is_active" ∉ (search_executors_filters none none none none none none none
      none none none none none none none).map Prod.fst := by
  obtain ⟨h1, h2, h3, h4, h5, h6, h7, h8, h9, h10, h11, h12, h13, h14, h15,
      h16, h17, h18, h19, h20, h21, h22, h23, h24, h25⟩ :=
    omitted_optionals_absent none (some 5) none none (Json.obj [])
      none none none none none none none none none none none none none none
      none none none none
  exact ⟨h1 rfl, h5 (BaseRouter.make 3 "http://h".toList), h10, h15 rfl⟩

/-- C8: `stop_executor` serializes `keep_position` as the lowercase string
literal `"true"` / `"false"` (`str(keep_position).lower()`), never as a native
JSON boolean, and places it in the query parameters of the POST request. -/
theorem stop_executor_keep_position_lowercase :
    stop_executor_params true = [("keep_position", Json.str "true")] ∧
    stop_executor_params false = [("keep_position", Json.str "false")] ∧
    ∀ (rt : BaseRouter) (eid : String) (b : Bool),
      (ExecutorsRouter.stop_executor_request rt eid b).params
        = some [("keep_position", Json.str (if b then "true" else "false"))] := by
  refine ⟨rfl, rfl, ?_⟩
  intro rt eid b
  cases b <;> rfl

/-- C9: because `get_orders` filters optional parameters by truthiness, an
explicit `0` for any of its four arguments yields a request identical to
omitting the argument; `search_executors` filters by an is-not-None test and
therefore keeps an explicit `False` or `0` in the body it sends. -/
theorem truthiness_drops_zero_is_none_keeps_it (rt : BaseRouter)
    (st et pg ps : Option Int) :
    TradingRouter.get_orders_request rt (some 0) et pg ps
      = TradingRouter.get_orders_request rt none et pg ps ∧
    TradingRouter.get_orders_request rt st (some 0) pg ps
      = TradingRouter.get_orders_request rt st none pg ps ∧
    TradingRouter.get_orders_request rt st et (some 0) ps
      = TradingRouter.get_orders_request rt st et none ps ∧
    TradingRouter.get_orders_request rt st et pg (some 0)
      = TradingRouter.get_orders_request rt st et pg none ∧
    search_executors_filters none none none none (some false) none none none
      none none none none none none = [("is_active", Json.bool false)] ∧
    search_executors_filters none none none none none none none none none none
      (some 0) none none none = [("start_time_from", Json.num 0)] :=
  ⟨rfl, rfl, rfl, rfl, rfl, rfl⟩

/-- C6: on every reachable client state with no live session — a fresh client
before `init()`, or any state after `close()` — each of the ten router
properties raises the not-initialized `RuntimeError` (a typed error, never a
null-dereference), and `client.accounts.list_accounts()` fails with that same
error without consulting any network response (its result is independent of
the response the network would have delivered). After `close()` the session
is always gone, so access fails this way. -/
theorem router_access_fails_fast (c : ClientState) (h : Reachable c)
    (r r2 : Response) :
    (c._session = none →
      (c.accounts_router = .error not_initialized_message ∧
       c.markets_router = .error not_initialized_message ∧
       c.trading_router = .error not_initialized_message ∧
       c.docker_router = .error not_initialized_message ∧
       c.bot_orchestration_router = .error not_initialized_message ∧
       c.controllers_router = .error not_initialized_message ∧
       c.scripts_router = .error not_initialized_message ∧
       c.databases_router = .error not_initialized_message ∧
       c.backtesting_router = .error not_initialized_message ∧
       c.performance_router = .error not_initialized_message) ∧
      client_accounts_list_accounts c r
        = .error (.notInitialized not_initialized_message) ∧
      client_accounts_list_accounts c r = client_accounts_list_accounts c r2) ∧
    c.close._session = none ∧
    c.close.accounts_router = .error not_initialized_message ∧
    client_accounts_list_accounts c.close r
      = .error (.notInitialized not_initialized_message) := by
  have inv := reachable_invariant c h
  have hclose_sess : c.close._session = none := by
    rcases hs : c._session with _ | s
    · simp [ClientState.close, hs]
    · simp [ClientState.close, hs]
  have hclose_inv := reachable_invariant c.close (Reachable.close c h)
  have hclose_acc : c.close._accounts = none :=
    hclose_inv.2.1 hclose_sess _ (by simp [routers_of])
  refine ⟨?_, hclose_sess, ?_, ?_⟩
  · intro hnone
    have hk := inv.2.1 hnone
    have h1 : c._accounts = none := hk _ (by simp [routers_of])
    have h2 : c._markets = none := hk _ (by simp [routers_of])
    have h3 : c._trading = none := hk _ (by simp [routers_of])
    have h4 : c._docker = none := hk _ (by simp [routers_of])
    have h5 : c._bot_orchestration = none := hk _ (by simp [routers_of])
    have h6 : c._controllers = none := hk _ (by simp [routers_of])
    have h7 : c._scripts = none := hk _ (by simp [routers_of])
    have h8 : c._databases = none := hk _ (by simp [routers_of])
    have h9 : c._backtesting = none := hk _ (by simp [routers_of])
    have h10 : c._performance = none := hk _ (by simp [routers_of])
    refine ⟨⟨?_, ?_, ?_, ?_, ?_, ?_, ?_, ?_, ?_, ?_⟩, ?_, ?_⟩
    · simp [ClientState.accounts_router, h1]
    · simp [ClientState.markets_router, h2]
    · simp [ClientState.trading_router, h3]
    · simp [ClientState.docker_router, h4]
    · simp [ClientState.bot_orchestration_router, h5]
    · simp [ClientState.controllers_router, h6]
    · simp [ClientState.scripts_router, h7]
    · simp [ClientState.databases_router, h8]
    · simp [ClientState.backtesting_router, h9]
    · simp [ClientState.performance_router, h10]
    · simp [client_accounts_list_accounts, ClientState.accounts_router, h1]
    · simp [client_accounts_list_accounts, ClientState.accounts_router, h1]
  · simp [ClientState.accounts_router, hclose_acc]
  · simp [client_accounts_list_accounts, ClientState.accounts_router, hclose_acc]

/-- C6 witness: a concrete client that was initialized and then closed — the
subsequent `accounts.list_accounts()` call fails with the not-initialized
error, not with a network result. -/
theorem router_access_fails_fast_witness :
    client_accounts_list_accounts
        ((HummingbotClient.make "http://h".toList "admin" "admin" none).init 1).close
        ⟨200, some Json.null⟩
      = .error (.notInitialized not_initialized_message) := by
  have h := router_access_fails_fast
    ((HummingbotClient.make "http://h".toList "admin" "admin" none).init 1)
    (Reachable.init _ 1 (Reachable.make _ _ _ _))
    ⟨200, some Json.null⟩ ⟨200, some Json.null⟩
  exact h.2.2.2

/-- C7: on every reachable client state whose session is live, all ten router
fields hold a router referencing exactly that session and the client's own
(slash-stripped) base URL, and `init` is idempotent — calling it again
changes nothing: no new session, no replaced routers. -/
theorem single_session_idempotent_init (c : ClientState) (h : Reachable c)
    (s : Nat) (hs : c._session = some s) :
    (∀ o ∈ routers_of c, o = some ⟨s, c.base_url⟩) ∧
    ∀ f, c.init f = c := by
  have inv := reachable_invariant c h
  refine ⟨inv.2.2 s hs, ?_⟩
  intro f
  simp [ClientState.init, hs]

/-- C7 witness: a concrete initialized client — its accounts router holds
session 5 and the stored base URL, and a second `init` (with a would-be new
session 9) leaves the state untouched. -/
theorem single_session_idempotent_init_witness :
    ((HummingbotClient.make "http://h".toList "admin" "admin" none).init 5)._accounts
      = some ⟨5, ((HummingbotClient.make "http://h".toList "admin" "admin" none).init 5).base_url⟩ ∧
    ((HummingbotClient.make "http://h".toList "admin" "admin" none).init 5).init 9
      = (HummingbotClient.make "http://h".toList "admin" "admin" none).init 5 := by
  have h := single_session_idempotent_init
    ((HummingbotClient.make "http://h".toList "admin" "admin" none).init 5)
    (Reachable.init _ 5 (Reachable.make _ _ _ _)) 5 rfl
  exact ⟨h.1 _ (by simp [routers_of]), h.2 9⟩
